import Mathlib

/-!
Shallow embedding of the ForexJoey fusion-and-adaptive-weighting core.

Python floats are modelled as rationals (ℚ).  Python divisions raise
ZeroDivisionError inside the per-group try/except blocks of the technical
scorer, degrading the enclosing indicator group; the embedding totalises
division (q / 0 = 0 in ℚ).  No claim settled below depends on behaviour at a
zero divisor.  Factor interpretation strings (human-readable text built by
f-string formatting) are omitted; factor names and values are kept.
-/

namespace ForexJoey

/-! ### Fusion engine fallback path (ai-engine/services/ai_engine.py,
`fallback_combine_analyses`, lines 161-232).

An Opinion is the common output shape of an analysis source.  The factor
lists carried by each opinion are passed through the fallback untouched
(lines 226-229) and are not modelled here. -/

structure Opinion where
  direction : String
  confidence_score : ℚ
deriving Repr, DecidableEq

/-- Embeds lines 180-184: `direction_map = {"BUY": 1, "NEUTRAL": 0, "SELL": -1}`
and `direction_map.get(d, 0)` — any other string maps to 0. -/
def directionValue (d : String) : ℚ :=
  if d = "BUY" then 1
  else if d = "NEUTRAL" then 0
  else if d = "SELL" then -1
  else 0

/-- Embeds lines 186-193: the weighted sum with the literal weights
`{"technical": 0.4, "fundamental": 0.3, "sentiment": 0.15, "economic": 0.15}`. -/
def combinedValue (tech fund sent econ : Opinion) : ℚ :=
  directionValue tech.direction * (4/10) +
  directionValue fund.direction * (3/10) +
  directionValue sent.direction * (15/100) +
  directionValue econ.direction * (15/100)

/-- Embeds lines 195-201: the threshold decision on the combined value. -/
def fallbackDirection (cv : ℚ) : String :=
  if cv > 2/10 then "BUY"
  else if cv < -(2/10) then "SELL"
  else "NEUTRAL"

/-- Embeds lines 203-212: confidence factors from sources whose direction
equals the chosen combined direction, in source order (technical,
fundamental, sentiment, economic).  A missing confidence key defaults to 0.5
in the source; here confidence is always present on the Opinion. -/
def confidenceFactors (tech fund sent econ : Opinion) (dir : String) : List ℚ :=
  (if tech.direction = dir then [tech.confidence_score] else []) ++
  (if fund.direction = dir then [fund.confidence_score] else []) ++
  (if sent.direction = dir then [sent.confidence_score] else []) ++
  (if econ.direction = dir then [econ.confidence_score] else [])

/-- Embeds line 214: `sum(confidence_factors) / len(confidence_factors) if
confidence_factors else 0.5`. -/
def fallbackConfidence (factors : List ℚ) : ℚ :=
  if factors ≠ [] then factors.sum / factors.length else 5/10

structure FallbackResult where
  direction : String
  confidence_score : ℚ
deriving Repr, DecidableEq

/-- Embeds `fallback_combine_analyses` (lines 161-232), restricted to the
computed direction and confidence (the summary/reasoning strings and the
pass-through factor lists carry no further computation). -/
def fallback_combine_analyses (tech fund sent econ : Opinion) : FallbackResult :=
  let cv := combinedValue tech fund sent econ
  let dir := fallbackDirection cv
  { direction := dir
    confidence_score := fallbackConfidence (confidenceFactors tech fund sent econ dir) }

/-! ### Performance model sources -/

inductive Source where
  | technical
  | fundamental
  | sentiment
  | economic
deriving Repr, DecidableEq

instance : Fintype Source :=
  ⟨⟨{Source.technical, Source.fundamental, Source.sentiment, Source.economic}, by decide⟩,
   by intro x; cases x <;> decide⟩

/-- Following the spec's words, for comparison with the code: "compute
`combined = Σ value_i · weight_i` using the bucket's current `factor_weights`
(default 0.4/0.3/0.15/0.15 for technical/fundamental/sentiment/economic if no
learned weights exist for the bucket)".  `some w` is a bucket with learned
weights, `none` is the no-learned-weights case. -/
def specFallbackCombined (learned : Option (Source → ℚ)) (tech fund sent econ : Opinion) : ℚ :=
  match learned with
  | some w =>
      directionValue tech.direction * w Source.technical +
      directionValue fund.direction * w Source.fundamental +
      directionValue sent.direction * w Source.sentiment +
      directionValue econ.direction * w Source.economic
  | none =>
      directionValue tech.direction * (4/10) +
      directionValue fund.direction * (3/10) +
      directionValue sent.direction * (15/100) +
      directionValue econ.direction * (15/100)

/-! ### Signal builder (ai-engine/services/ai_engine.py,
`generate_trading_signal`, lines 234-312).

The `technical_factors` value is a Python list whose well-formed entries are
factor dicts, but the code at line 260 tests `"atr" in technical_factors`,
a string-vs-element comparison.  To model Python semantics the entries are a
sum of strings and factor records: a string entry equals `"atr"` only if it
is that very string; a dict entry never equals a string. -/

structure Factor where
  name : String
  value : ℚ
deriving Repr, DecidableEq

inductive PyEntry where
  | strE (s : String)
  | facE (f : Factor)
deriving Repr, DecidableEq

/-- Embeds the line-260 test `"atr" in combined_analysis.get("technical_factors", [])`:
Python list membership compares `"atr"` with each element; a dict never
equals a string. -/
def atrMembershipCheck (fs : List PyEntry) : Bool :=
  fs.any fun e =>
    match e with
    | PyEntry.strE s => s = "atr"
    | PyEntry.facE _ => false

/-- Embeds line 261, `next((f for f in technical_factors if f.get("name") == "atr"), {}).get("value", 0)`:
scanning the list, a string element raises AttributeError (strings have no
`.get`), a factor named `"atr"` yields its value, and exhaustion yields the
default `{}` whose `.get("value", 0)` is 0. -/
def findAtrFactor : List PyEntry → Except String ℚ
  | [] => Except.ok 0
  | PyEntry.strE _ :: _ => Except.error "AttributeError"
  | PyEntry.facE f :: rest =>
      if f.name = "atr" then Except.ok f.value else findAtrFactor rest

/-- Embeds lines 260-265: the volatility unit used for stop/target sizing.
`if not atr` uses Python truthiness, so an extracted value of 0 also falls
back to 0.5 percent of the entry price. -/
def volatilityUnit (technical_factors : List PyEntry) (entry_price : ℚ) : Except String ℚ :=
  if atrMembershipCheck technical_factors then
    match findAtrFactor technical_factors with
    | Except.error e => Except.error e
    | Except.ok v => Except.ok (if v = 0 then entry_price * (5/1000) else v)
  else
    Except.ok (entry_price * (5/1000))

/-- Embeds lines 275-278: `risk_reward_ratio = reward / risk if risk > 0 else 0`. -/
def riskRewardRatio (entry_price stop_loss take_profit : ℚ) : ℚ :=
  let risk := |entry_price - stop_loss|
  let reward := |take_profit - entry_price|
  if risk > 0 then reward / risk else 0

/-- Embeds lines 281-288: the fixed timeframe-to-duration table. -/
def expectedDuration (timeframe : String) : String :=
  if timeframe = "M15" then "2-8 hours"
  else if timeframe = "H1" then "1-2 days"
  else if timeframe = "H4" then "2-5 days"
  else if timeframe = "D1" then "1-3 weeks"
  else if timeframe = "W1" then "3-8 weeks"
  else "Unknown"

structure CombinedAnalysis where
  direction : String
  confidence_score : ℚ
  technical_factors : List PyEntry
deriving Repr, DecidableEq

structure CurrentPrice where
  bid : ℚ
  ask : ℚ
deriving Repr, DecidableEq

structure TradeSignal where
  direction : String
  entry_price : ℚ
  stop_loss : ℚ
  take_profit : ℚ
  risk_reward_ratio : ℚ
  confidence_score : ℚ
  expected_duration : String
deriving Repr, DecidableEq

inductive SignalResult where
  | suppressed (reason : String)
  | signal (s : TradeSignal)
  | pythonError (msg : String)
deriving Repr, DecidableEq

/-- Embeds `generate_trading_signal` (lines 234-312).  `suppressed` is the
`{"generate": False, ...}` record, `signal` the generated signal record, and
`pythonError` an uncaught AttributeError from the line-261 generator. -/
def generate_trading_signal (ca : CombinedAnalysis) (current_price : CurrentPrice)
    (timeframe : String) : SignalResult :=
  if ca.direction = "NEUTRAL" ∨ ca.confidence_score < 65/100 then
    SignalResult.suppressed "Direction is NEUTRAL or confidence too low"
  else
    let entry_price := if ca.direction = "BUY" then current_price.ask else current_price.bid
    match volatilityUnit ca.technical_factors entry_price with
    | Except.error e => SignalResult.pythonError e
    | Except.ok atr =>
        let stop_loss :=
          if ca.direction = "BUY" then entry_price - atr * (15/10) else entry_price + atr * (15/10)
        let take_profit :=
          if ca.direction = "BUY" then entry_price + atr * (25/10) else entry_price - atr * (25/10)
        SignalResult.signal
          { direction := ca.direction
            entry_price := entry_price
            stop_loss := stop_loss
            take_profit := take_profit
            risk_reward_ratio := riskRewardRatio entry_price stop_loss take_profit
            confidence_score := ca.confidence_score
            expected_duration := expectedDuration timeframe }

/-! ### Service-level reflection (ai-engine/services/ai_engine.py,
`reflect_on_signal_outcome`, lines 314-406).

Both the primary and the fallback return carry the same `was_successful` and
`profit_loss_pips` computed at lines 322-331; only those two fields carry
computation. -/

structure ServiceReflection where
  was_successful : Bool
  profit_loss_pips : ℚ
deriving Repr, DecidableEq

/-- Embeds lines 322-331: pips and accuracy from direction, entry and exit
price (`exit_price` is `actual_outcome.get("exit_price", 0)`; any non-BUY
direction takes the SELL branch). -/
def reflect_on_signal_outcome (direction : String) (entry_price exit_price : ℚ) :
    ServiceReflection :=
  if direction = "BUY" then
    { was_successful := decide (entry_price ≤ exit_price)
      profit_loss_pips := (exit_price - entry_price) * 10000 }
  else
    { was_successful := decide (exit_price ≤ entry_price)
      profit_loss_pips := (entry_price - exit_price) * 10000 }

/-! ### Backend reflection engine (backend/app/db/reflection.py). -/

/-- Embeds reflection.py lines 64-69: `was_accurate` from the caller-supplied
`profit_loss_pips` (default 0), with strict comparisons. -/
def backendWasAccurate (direction : String) (profit_loss_pips : ℚ) : Bool :=
  if direction = "BUY" ∧ 0 < profit_loss_pips then true
  else if direction = "SELL" ∧ profit_loss_pips < 0 then true
  else false

structure FactorAnalysis where
  impact : ℚ
  accuracy : ℚ
deriving Repr, DecidableEq

structure Performance where
  total_signals : ℕ
  accurate_signals : ℕ
  accuracy_rate : ℚ
  factor_weights : Source → ℚ
  factor_accuracy : Source → ℚ
  recent_signals : List Bool

/-- Embeds reflection.py lines 252-272: the bucket synthesized when no prior
metrics exist, with default equal weights 0.25. -/
def defaultPerformance : Performance where
  total_signals := 0
  accurate_signals := 0
  accuracy_rate := 0
  factor_weights := fun _ => 25/100
  factor_accuracy := fun _ => 0
  recent_signals := []

/-- Embeds `ReflectionEngine._update_performance_metrics` (reflection.py lines
231-311).  `factors_analysis` maps each source either to its analysis record
or to `none` when the reflection JSON omitted that key (the per-source loop
at line 283 touches only present keys).  The recent-signals entries keep only
the `was_accurate` boolean (the timestamp carries no computation). -/
def updatePerformanceMetrics (existing : Option Performance) (was_accurate : Bool)
    (factors_analysis : Source → Option FactorAnalysis) : Performance :=
  let p := existing.getD defaultPerformance
  let total := p.total_signals + 1
  let accurate := if was_accurate then p.accurate_signals + 1 else p.accurate_signals
  let rate : ℚ := (accurate : ℚ) / (total : ℚ)
  let facAcc : Source → ℚ := fun s =>
    match factors_analysis s with
    | none => p.factor_accuracy s
    | some a => (p.factor_accuracy s * ((total : ℚ) - 1) + a.accuracy) / (total : ℚ)
  let blended : Source → ℚ := fun s =>
    match factors_analysis s with
    | none => p.factor_weights s
    | some a => p.factor_weights s * (8/10) + a.impact * (2/10)
  let total_weight : ℚ := ∑ s : Source, blended s
  let weights : Source → ℚ := fun s => blended s / total_weight
  let recent0 := p.recent_signals ++ [was_accurate]
  let recent := if recent0.length > 10 then recent0.drop (recent0.length - 10) else recent0
  { total_signals := total
    accurate_signals := accurate
    accuracy_rate := rate
    factor_weights := weights
    factor_accuracy := facAcc
    recent_signals := recent }

/-! ### Technical scorer (ai-engine/services/technical.py,
`analyze_technical_data`, lines 11-451).

The input record carries the values the code reads from the indicator frame:
the number of supplied periods (`len(indicators)`), the last and previous
values of each indicator column, presence flags for the optionally-checked
columns (MACD, stochastic, Bollinger), and the recent high/low/close series
used by the ATR and swing-point computations.  Evidence-factor values that
are ratios of indicator values are kept; interpretation strings are not. -/

inductive FVal where
  | num (q : ℚ)
  | nat (n : ℕ)
  | summary (buySignals sellSignals totalSignals buyScore sellScore : ℚ)
deriving Repr, DecidableEq

structure TFactor where
  name : String
  value : FVal
deriving Repr, DecidableEq

/-- Votes accumulated by one indicator relationship: the amount added to
`buy_signals`, the amount added to `sell_signals`, and the evidence factors
appended. -/
structure Votes where
  buy : ℚ
  sell : ℚ
  factors : List TFactor
deriving Repr, DecidableEq

def Votes.add (a b : Votes) : Votes :=
  { buy := a.buy + b.buy, sell := a.sell + b.sell, factors := a.factors ++ b.factors }

def Votes.none : Votes := { buy := 0, sell := 0, factors := [] }

def Votes.sum (l : List Votes) : Votes := l.foldr Votes.add Votes.none

/-- Embeds technical.py lines 53-67: price vs 20-period SMA, weight 1. -/
def sma20Votes (lastClose lastSma20 : ℚ) : Votes :=
  if lastClose > lastSma20 then
    ⟨1, 0, [⟨"price_above_sma_20", FVal.num (lastClose / lastSma20)⟩]⟩
  else if lastClose < lastSma20 then
    ⟨0, 1, [⟨"price_below_sma_20", FVal.num (lastSma20 / lastClose)⟩]⟩
  else Votes.none

/-- Embeds lines 69-83: price vs 50-period SMA, weight 1. -/
def sma50Votes (lastClose lastSma50 : ℚ) : Votes :=
  if lastClose > lastSma50 then
    ⟨1, 0, [⟨"price_above_sma_50", FVal.num (lastClose / lastSma50)⟩]⟩
  else if lastClose < lastSma50 then
    ⟨0, 1, [⟨"price_below_sma_50", FVal.num (lastSma50 / lastClose)⟩]⟩
  else Votes.none

/-- Embeds lines 85-99: price vs 200-period SMA, weight 2 (`+= 2`, higher
weight for the long-term trend). -/
def sma200Votes (lastClose lastSma200 : ℚ) : Votes :=
  if lastClose > lastSma200 then
    ⟨2, 0, [⟨"price_above_sma_200", FVal.num (lastClose / lastSma200)⟩]⟩
  else if lastClose < lastSma200 then
    ⟨0, 2, [⟨"price_below_sma_200", FVal.num (lastSma200 / lastClose)⟩]⟩
  else Votes.none

/-- Embeds lines 101-121: EMA 12/26 crossover, weight 2. -/
def emaCrossVotes (lastEma12 lastEma26 prevEma12 prevEma26 : ℚ) : Votes :=
  if lastEma12 > lastEma26 ∧ prevEma12 ≤ prevEma26 then
    ⟨2, 0, [⟨"ema_12_26_bullish_crossover", FVal.num (lastEma12 / lastEma26)⟩]⟩
  else if lastEma12 < lastEma26 ∧ prevEma12 ≥ prevEma26 then
    ⟨0, 2, [⟨"ema_12_26_bearish_crossover", FVal.num (lastEma26 / lastEma12)⟩]⟩
  else Votes.none

/-- Embeds lines 136-149: MACD/signal-line crossover, weight 2. -/
def macdCrossVotes (lastMacd lastMacdSignal prevMacd prevMacdSignal : ℚ) : Votes :=
  if lastMacd > lastMacdSignal ∧ prevMacd ≤ prevMacdSignal then
    ⟨2, 0, [⟨"macd_bullish_crossover", FVal.num (lastMacd - lastMacdSignal)⟩]⟩
  else if lastMacd < lastMacdSignal ∧ prevMacd ≥ prevMacdSignal then
    ⟨0, 2, [⟨"macd_bearish_crossover", FVal.num (lastMacdSignal - lastMacd)⟩]⟩
  else Votes.none

/-- Embeds lines 151-164: MACD sign, weight 1. -/
def macdSignVotes (lastMacd : ℚ) : Votes :=
  if lastMacd > 0 then ⟨1, 0, [⟨"macd_positive", FVal.num lastMacd⟩]⟩
  else if lastMacd < 0 then ⟨0, 1, [⟨"macd_negative", FVal.num lastMacd⟩]⟩
  else Votes.none

/-- Embeds lines 130-164: the MACD group runs only when both MACD columns are
present. -/
def macdVotes (hasMacdCols : Bool) (lastMacd lastMacdSignal prevMacd prevMacdSignal : ℚ) :
    Votes :=
  if hasMacdCols then
    (macdCrossVotes lastMacd lastMacdSignal prevMacd prevMacdSignal).add
      (macdSignVotes lastMacd)
  else Votes.none

/-- Embeds lines 166-195: RSI zones.  Overbought/oversold vote weight 1, the
50-level momentum zones vote weight 0.5 (`+= 0.5`). -/
def rsiVotes (lastRsi : ℚ) : Votes :=
  if lastRsi > 70 then ⟨0, 1, [⟨"rsi_overbought", FVal.num lastRsi⟩]⟩
  else if lastRsi < 30 then ⟨1, 0, [⟨"rsi_oversold", FVal.num lastRsi⟩]⟩
  else if lastRsi > 50 then ⟨5/10, 0, [⟨"rsi_bullish", FVal.num lastRsi⟩]⟩
  else if lastRsi < 50 then ⟨0, 5/10, [⟨"rsi_bearish", FVal.num lastRsi⟩]⟩
  else Votes.none

/-- Embeds lines 204-217: stochastic percent-K/percent-D crossover, weight 1. -/
def stochCrossVotes (lastK lastD prevK prevD : ℚ) : Votes :=
  if lastK > lastD ∧ prevK ≤ prevD then
    ⟨1, 0, [⟨"stoch_bullish_crossover", FVal.num (lastK - lastD)⟩]⟩
  else if lastK < lastD ∧ prevK ≥ prevD then
    ⟨0, 1, [⟨"stoch_bearish_crossover", FVal.num (lastD - lastK)⟩]⟩
  else Votes.none

/-- Embeds lines 219-232: stochastic overbought/oversold zone, weight 1. -/
def stochZoneVotes (lastK lastD : ℚ) : Votes :=
  if lastK > 80 ∧ lastD > 80 then ⟨0, 1, [⟨"stoch_overbought", FVal.num lastK⟩]⟩
  else if lastK < 20 ∧ lastD < 20 then ⟨1, 0, [⟨"stoch_oversold", FVal.num lastK⟩]⟩
  else Votes.none

/-- Embeds lines 198-232: the stochastic group runs only when both columns
are present. -/
def stochVotes (hasStochCols : Bool) (lastK lastD prevK prevD : ℚ) : Votes :=
  if hasStochCols then
    (stochCrossVotes lastK lastD prevK prevD).add (stochZoneVotes lastK lastD)
  else Votes.none

/-- Embeds lines 254-267: Bollinger band breach, weight 1. -/
def bbBreachVotes (lastClose bbl bbu : ℚ) : Votes :=
  if lastClose < bbl then
    ⟨1, 0, [⟨"price_below_lower_bb", FVal.num (bbl / lastClose)⟩]⟩
  else if lastClose > bbu then
    ⟨0, 1, [⟨"price_above_upper_bb", FVal.num (lastClose / bbu)⟩]⟩
  else Votes.none

/-- Embeds lines 241-267: the Bollinger group (band-width factor plus breach
votes) runs only when the three band columns are present. -/
def bbVotes (hasBBCols : Bool) (lastClose bbl bbm bbu : ℚ) : Votes :=
  if hasBBCols then
    Votes.add ⟨0, 0, [⟨"bollinger_band_width", FVal.num ((bbu - bbl) / bbm)⟩]⟩
      (bbBreachVotes lastClose bbl bbu)
  else Votes.none

/-- Embeds lines 275-282: per-period true ranges over the recent series
(index i from 1). -/
def trueRanges (highs lows closes : List ℚ) : List ℚ :=
  (List.range (closes.length - 1)).map fun k =>
    let i := k + 1
    max (highs.getD i 0 - lows.getD i 0)
      (max |highs.getD i 0 - closes.getD (i - 1) 0| |lows.getD i 0 - closes.getD (i - 1) 0|)

/-- Embeds line 284: mean of the last 14 true ranges, `None` when fewer than
14 exist. -/
def atrValue (highs lows closes : List ℚ) : Option ℚ :=
  let tr := trueRanges highs lows closes
  if tr.length ≥ 14 then some ((tr.drop (tr.length - 14)).sum / 14) else none

/-- Embeds lines 286-307: ATR evidence factors (no votes are cast by this
block).  `if atr:` is Python truthiness, so both `None` and an ATR of exactly
0 skip the block. -/
def atrFactors (highs lows closes : List ℚ) (lastClose : ℚ) : Votes :=
  match atrValue highs lows closes with
  | none => Votes.none
  | some a =>
      if a = 0 then Votes.none
      else
        let atrPercentage := a / lastClose * 100
        Votes.add ⟨0, 0, [⟨"atr", FVal.num a⟩]⟩
          (if atrPercentage > 1 then ⟨0, 0, [⟨"high_volatility", FVal.num atrPercentage⟩]⟩
           else if atrPercentage < 3/10 then
             ⟨0, 0, [⟨"low_volatility", FVal.num atrPercentage⟩]⟩
           else Votes.none)

/-- Embeds lines 320-324: index i is a swing high iff its high strictly
exceeds the high of every candle within 5 periods on both sides (the loop
ranges over `range(window, len - window)` with `window = 5`). -/
def isSwingHigh (highs : List ℚ) (i : ℕ) : Bool :=
  ((List.range 5).all fun j => decide (highs.getD i 0 > highs.getD (i - (j + 1)) 0)) &&
  ((List.range 5).all fun j => decide (highs.getD i 0 > highs.getD (i + (j + 1)) 0))

/-- Embeds lines 326-329, symmetric on lows. -/
def isSwingLow (lows : List ℚ) (i : ℕ) : Bool :=
  ((List.range 5).all fun j => decide (lows.getD i 0 < lows.getD (i - (j + 1)) 0)) &&
  ((List.range 5).all fun j => decide (lows.getD i 0 < lows.getD (i + (j + 1)) 0))

/-- Swing-high price levels, in index order (lines 317-324). -/
def swingHighLevels (highs : List ℚ) : List ℚ :=
  (((List.range (highs.length - 10)).map (· + 5)).filter (isSwingHigh highs)).map
    fun i => highs.getD i 0

/-- Swing-low price levels, in index order (lines 317-329). -/
def swingLowLevels (lows : List ℚ) : List ℚ :=
  (((List.range (lows.length - 10)).map (· + 5)).filter (isSwingLow lows)).map
    fun i => lows.getD i 0

/-- Embeds lines 335-342: swing highs above the last close, sorted ascending,
first element — i.e. the least such level. -/
def nearestResistance (highs : List ℚ) (lastClose : ℚ) : Option ℚ :=
  ((swingHighLevels highs).filter fun l => l > lastClose).min?

/-- Embeds lines 336-343: swing lows below the last close, sorted descending,
first element — i.e. the greatest such level. -/
def nearestSupport (lows : List ℚ) (lastClose : ℚ) : Option ℚ :=
  ((swingLowLevels lows).filter fun l => l < lastClose).max?

/-- Embeds lines 345-359: nearest-resistance factor and the
close-to-resistance vote, weight 1 toward SELL. -/
def resistanceVotes (nearestR : Option ℚ) (lastClose : ℚ) : Votes :=
  match nearestR with
  | none => Votes.none
  | some r =>
      let dist := (r - lastClose) / lastClose * 100
      Votes.add ⟨0, 0, [⟨"nearest_resistance", FVal.num r⟩]⟩
        (if dist < 5/10 then ⟨0, 1, [⟨"close_to_resistance", FVal.num dist⟩]⟩ else Votes.none)

/-- Embeds lines 361-375: nearest-support factor and the close-to-support
vote, weight 1 toward BUY. -/
def supportVotes (nearestS : Option ℚ) (lastClose : ℚ) : Votes :=
  match nearestS with
  | none => Votes.none
  | some s =>
      let dist := (lastClose - s) / lastClose * 100
      Votes.add ⟨0, 0, [⟨"nearest_support", FVal.num s⟩]⟩
        (if dist < 5/10 then ⟨1, 0, [⟨"close_to_support", FVal.num dist⟩]⟩ else Votes.none)

/-- Embeds lines 377-402: risk-reward ratio from nearest support/resistance,
vote weight 1 either way. -/
def rrVotes (nearestS nearestR : Option ℚ) (lastClose : ℚ) : Votes :=
  match nearestS, nearestR with
  | some s, some r =>
      let risk := (lastClose - s) / lastClose
      let reward := (r - lastClose) / lastClose
      let rr := if risk > 0 then reward / risk else 0
      Votes.add ⟨0, 0, [⟨"risk_reward_ratio", FVal.num rr⟩]⟩
        (if rr > 2 then ⟨1, 0, [⟨"favorable_risk_reward_long", FVal.num rr⟩]⟩
         else if rr < 5/10 then ⟨0, 1, [⟨"unfavorable_risk_reward_long", FVal.num rr⟩]⟩
         else Votes.none)
  | _, _ => Votes.none

structure TechInput where
  numPeriods : ℕ
  lastClose : ℚ
  lastSma20 : ℚ
  lastSma50 : ℚ
  lastSma200 : ℚ
  lastEma12 : ℚ
  lastEma26 : ℚ
  prevEma12 : ℚ
  prevEma26 : ℚ
  hasMacdCols : Bool
  lastMacd : ℚ
  lastMacdSignal : ℚ
  prevMacd : ℚ
  prevMacdSignal : ℚ
  lastRsi : ℚ
  hasStochCols : Bool
  lastStochK : ℚ
  lastStochD : ℚ
  prevStochK : ℚ
  prevStochD : ℚ
  hasBBCols : Bool
  bbl : ℚ
  bbm : ℚ
  bbu : ℚ
  highs : List ℚ
  lows : List ℚ
  closes : List ℚ

/-- All vote blocks in source evaluation order: trend (lines 45-125),
momentum (127-236), volatility (238-311), support/resistance (313-406). -/
def allVotes (inp : TechInput) : Votes :=
  Votes.sum
    [sma20Votes inp.lastClose inp.lastSma20,
     sma50Votes inp.lastClose inp.lastSma50,
     sma200Votes inp.lastClose inp.lastSma200,
     emaCrossVotes inp.lastEma12 inp.lastEma26 inp.prevEma12 inp.prevEma26,
     macdVotes inp.hasMacdCols inp.lastMacd inp.lastMacdSignal inp.prevMacd inp.prevMacdSignal,
     rsiVotes inp.lastRsi,
     stochVotes inp.hasStochCols inp.lastStochK inp.lastStochD inp.prevStochK inp.prevStochD,
     bbVotes inp.hasBBCols inp.lastClose inp.bbl inp.bbm inp.bbu,
     atrFactors inp.highs inp.lows inp.closes inp.lastClose,
     resistanceVotes (nearestResistance inp.highs inp.lastClose) inp.lastClose,
     supportVotes (nearestSupport inp.lows inp.lastClose) inp.lastClose,
     rrVotes (nearestSupport inp.lows inp.lastClose) (nearestResistance inp.highs inp.lastClose)
       inp.lastClose]

/-- Embeds lines 123, 234, 309, 404: `total_signals += 7`, `+= 8`, `+= 3`,
`+= 3` — each group completes on a well-typed input. -/
def totalSignalsCount : ℚ := 7 + 8 + 3 + 3

/-- Embeds line 409: `buy_signals / total_signals if total_signals > 0 else 0`. -/
def buyScore (inp : TechInput) : ℚ :=
  if totalSignalsCount > 0 then (allVotes inp).buy / totalSignalsCount else 0

/-- Embeds line 410. -/
def sellScore (inp : TechInput) : ℚ :=
  if totalSignalsCount > 0 then (allVotes inp).sell / totalSignalsCount else 0

structure TechResult where
  direction : String
  confidence_score : ℚ
  factors : List TFactor
  error : Option String
deriving Repr, DecidableEq

/-- Embeds `analyze_technical_data` (technical.py lines 11-451): the
insufficient-data early return at lines 27-33, the vote accumulation, and the
direction/confidence decision at lines 408-442.  The function is total: the
source catches every exception and returns a degraded record instead of
raising to its caller. -/
def analyze_technical_data (inp : TechInput) : TechResult :=
  if inp.numPeriods < 50 then
    { direction := "NEUTRAL"
      confidence_score := 0
      factors := [⟨"insufficient_data", FVal.nat inp.numPeriods⟩]
      error := some "Insufficient data points for reliable analysis" }
  else
    let v := allVotes inp
    let bs := buyScore inp
    let ss := sellScore inp
    let dir : String :=
      if bs > ss then "BUY" else if ss > bs then "SELL" else "NEUTRAL"
    let conf : ℚ :=
      if bs > ss then 5/10 + min (5/10) ((bs - ss) * 2)
      else if ss > bs then 5/10 + min (5/10) ((ss - bs) * 2)
      else 5/10
    { direction := dir
      confidence_score := conf
      factors := v.factors ++ [⟨"signal_summary", FVal.summary v.buy v.sell totalSignalsCount bs ss⟩]
      error := none }

/-! ## Theorems -/

/-- C1 (amended): the deterministic fallback fusion always computes
`combined` as the weighted sum with the fixed weights 0.4/0.3/0.15/0.15 for
technical/fundamental/sentiment/economic — that is, it always agrees with
the spec's formula in its no-learned-weights case.  The bucket's learned
`factor_weights` are never consulted by the fallback path. -/
theorem fallback_fusion_fixed_weights (tech fund sent econ : Opinion) :
    combinedValue tech fund sent econ = specFallbackCombined none tech fund sent econ := rfl

/-- Learned weights used only by the C1 counterexample bucket. -/
def c1LearnedWeights : Source → ℚ := fun s =>
  match s with
  | Source.sentiment => 7/10
  | _ => 1/10

/-- C1 counterexample: a bucket with learned weights
technical 0.1 / fundamental 0.1 / sentiment 0.7 / economic 0.1 and the
four-Opinion input (BUY, SELL, SELL, SELL).  The spec's formula with the
learned weights gives combined -0.8 (direction SELL); the code computes
-0.2 with its fixed weights and returns NEUTRAL, so the fallback does not
use the bucket's learned factor weights. -/
theorem fallback_fusion_learned_weights_cex :
    combinedValue ⟨"BUY", 8/10⟩ ⟨"SELL", 6/10⟩ ⟨"SELL", 5/10⟩ ⟨"SELL", 7/10⟩ = -(2/10) ∧
    specFallbackCombined (some c1LearnedWeights)
      ⟨"BUY", 8/10⟩ ⟨"SELL", 6/10⟩ ⟨"SELL", 5/10⟩ ⟨"SELL", 7/10⟩ = -(8/10) ∧
    fallbackDirection (-(8/10)) = "SELL" ∧
    (fallback_combine_analyses ⟨"BUY", 8/10⟩ ⟨"SELL", 6/10⟩ ⟨"SELL", 5/10⟩
      ⟨"SELL", 7/10⟩).direction = "NEUTRAL" ∧
    ("NEUTRAL" : String) ≠ "SELL" := by
  have hcv : combinedValue ⟨"BUY", 8/10⟩ ⟨"SELL", 6/10⟩ ⟨"SELL", 5/10⟩ ⟨"SELL", 7/10⟩ =
      -(2/10) := by
    simp [combinedValue, directionValue]
    try norm_num
  refine ⟨hcv, ?_, ?_, ?_, by decide⟩
  · simp [specFallbackCombined, directionValue, c1LearnedWeights]
    try norm_num
  · unfold fallbackDirection
    rw [if_neg (by norm_num), if_pos (by norm_num)]
  · have h : (fallback_combine_analyses ⟨"BUY", 8/10⟩ ⟨"SELL", 6/10⟩ ⟨"SELL", 5/10⟩
        ⟨"SELL", 7/10⟩).direction =
        fallbackDirection (combinedValue ⟨"BUY", 8/10⟩ ⟨"SELL", 6/10⟩ ⟨"SELL", 5/10⟩
          ⟨"SELL", 7/10⟩) := rfl
    rw [h, hcv]
    unfold fallbackDirection
    rw [if_neg (by norm_num), if_neg (by norm_num)]

/-- C3: for every four-Opinion input the fallback direction is NEUTRAL iff
-0.2 ≤ combined ≤ 0.2, BUY iff combined > 0.2, and SELL iff combined < -0.2. -/
theorem fallback_direction_thresholds (tech fund sent econ : Opinion) :
    ((fallback_combine_analyses tech fund sent econ).direction = "NEUTRAL" ↔
      -(2/10) ≤ combinedValue tech fund sent econ ∧ combinedValue tech fund sent econ ≤ 2/10) ∧
    ((fallback_combine_analyses tech fund sent econ).direction = "BUY" ↔
      combinedValue tech fund sent econ > 2/10) ∧
    ((fallback_combine_analyses tech fund sent econ).direction = "SELL" ↔
      combinedValue tech fund sent econ < -(2/10)) := by
  have h : (fallback_combine_analyses tech fund sent econ).direction =
      fallbackDirection (combinedValue tech fund sent econ) := rfl
  rw [h]
  unfold fallbackDirection
  set cv := combinedValue tech fund sent econ with hcv
  split_ifs with h1 h2
  · exact ⟨iff_of_false (by decide) (fun hr => absurd h1 (not_lt.mpr hr.2)),
      iff_of_true rfl h1,
      iff_of_false (by decide) (fun hr => by linarith)⟩
  · exact ⟨iff_of_false (by decide) (fun hr => absurd hr.1 (not_le.mpr h2)),
      iff_of_false (by decide) h1,
      iff_of_true rfl h2⟩
  · exact ⟨iff_of_true rfl ⟨not_lt.mp h2, not_lt.mp h1⟩,
      iff_of_false (by decide) h1,
      iff_of_false (by decide) h2⟩

/-- C10: an input Opinion whose direction string is not exactly BUY, SELL or
NEUTRAL (e.g. the sentiment adapter's lowercase "bullish"/"bearish"/"neutral",
see sentiment_integration.py lines 67-73) maps to direction value 0,
contributes to the weighted sum exactly as a NEUTRAL opinion would, can never
equal the chosen combined direction, and its confidence never influences the
fallback result. -/
theorem foreign_direction_contributes_zero (tech fund sent econ : Opinion)
    (hb : sent.direction ≠ "BUY") (hs : sent.direction ≠ "SELL")
    (hn : sent.direction ≠ "NEUTRAL") :
    directionValue sent.direction = 0 ∧
    combinedValue tech fund sent econ =
      combinedValue tech fund ⟨"NEUTRAL", sent.confidence_score⟩ econ ∧
    (fallback_combine_analyses tech fund sent econ).direction ≠ sent.direction ∧
    ∀ c : ℚ, fallback_combine_analyses tech fund sent econ =
      fallback_combine_analyses tech fund ⟨sent.direction, c⟩ econ := by
  have hdv : directionValue sent.direction = 0 := by
    unfold directionValue
    rw [if_neg hb, if_neg hn, if_neg hs]
  have hdirNe : sent.direction ≠ fallbackDirection (combinedValue tech fund sent econ) := by
    unfold fallbackDirection
    split_ifs with h1 h2
    · exact hb
    · exact hs
    · exact hn
  have hneu : directionValue "NEUTRAL" = 0 := by decide
  refine ⟨hdv, ?_, fun hEq => hdirNe hEq.symm, ?_⟩
  · show directionValue tech.direction * (4/10) + directionValue fund.direction * (3/10) +
        directionValue sent.direction * (15/100) + directionValue econ.direction * (15/100) =
      directionValue tech.direction * (4/10) + directionValue fund.direction * (3/10) +
        directionValue "NEUTRAL" * (15/100) + directionValue econ.direction * (15/100)
    rw [hdv, hneu]
  · intro c
    have hfb : confidenceFactors tech fund sent econ
          (fallbackDirection (combinedValue tech fund sent econ)) =
        confidenceFactors tech fund ⟨sent.direction, c⟩ econ
          (fallbackDirection (combinedValue tech fund sent econ)) := by
      unfold confidenceFactors
      simp only [if_neg hdirNe]
    show FallbackResult.mk (fallbackDirection (combinedValue tech fund sent econ))
        (fallbackConfidence (confidenceFactors tech fund sent econ
          (fallbackDirection (combinedValue tech fund sent econ)))) =
      FallbackResult.mk (fallbackDirection (combinedValue tech fund sent econ))
        (fallbackConfidence (confidenceFactors tech fund ⟨sent.direction, c⟩ econ
          (fallbackDirection (combinedValue tech fund sent econ))))
    rw [hfb]

/-- C10 witness: the sentiment adapter output "bullish" at a concrete input. -/
theorem foreign_direction_contributes_zero_witness :
    (("bullish" : String) ≠ "BUY" ∧ ("bullish" : String) ≠ "SELL" ∧
      ("bullish" : String) ≠ "NEUTRAL") ∧
    (directionValue "bullish" = 0 ∧
     combinedValue ⟨"BUY", 8/10⟩ ⟨"NEUTRAL", 6/10⟩ ⟨"bullish", 9/10⟩ ⟨"BUY", 7/10⟩ =
       combinedValue ⟨"BUY", 8/10⟩ ⟨"NEUTRAL", 6/10⟩ ⟨"NEUTRAL", 9/10⟩ ⟨"BUY", 7/10⟩ ∧
     (fallback_combine_analyses ⟨"BUY", 8/10⟩ ⟨"NEUTRAL", 6/10⟩ ⟨"bullish", 9/10⟩
       ⟨"BUY", 7/10⟩).direction ≠ "bullish" ∧
     ∀ c : ℚ, fallback_combine_analyses ⟨"BUY", 8/10⟩ ⟨"NEUTRAL", 6/10⟩ ⟨"bullish", 9/10⟩
         ⟨"BUY", 7/10⟩ =
       fallback_combine_analyses ⟨"BUY", 8/10⟩ ⟨"NEUTRAL", 6/10⟩ ⟨"bullish", c⟩
         ⟨"BUY", 7/10⟩) :=
  ⟨⟨by decide, by decide, by decide⟩,
   foreign_direction_contributes_zero ⟨"BUY", 8/10⟩ ⟨"NEUTRAL", 6/10⟩ ⟨"bullish", 9/10⟩
     ⟨"BUY", 7/10⟩ (by decide) (by decide) (by decide)⟩

/-- The blended (pre-normalization) weight of one source inside
`updatePerformanceMetrics`. -/
def blendedWeight (p : Performance) (factors_analysis : Source → Option FactorAnalysis)
    (s : Source) : ℚ :=
  match factors_analysis s with
  | none => p.factor_weights s
  | some a => p.factor_weights s * (8/10) + a.impact * (2/10)

lemma updatePerformanceMetrics_factor_weights (p : Performance) (wa : Bool)
    (fa : Source → Option FactorAnalysis) :
    (updatePerformanceMetrics (some p) wa fa).factor_weights =
      fun s => blendedWeight p fa s / ∑ s2 : Source, blendedWeight p fa s2 := rfl

lemma blendedWeight_nonneg (p : Performance) (fa : Source → Option FactorAnalysis)
    (hw : ∀ s, 0 ≤ p.factor_weights s)
    (hfa : ∀ s a, fa s = some a → 0 ≤ a.impact ∧ a.impact ≤ 1) (s : Source) :
    0 ≤ blendedWeight p fa s := by
  unfold blendedWeight
  cases hfs : fa s with
  | none => exact hw s
  | some a =>
      exact add_nonneg (mul_nonneg (hw s) (by norm_num))
        (mul_nonneg (hfa s a hfs).1 (by norm_num))

lemma blendedWeight_sum_pos (p : Performance) (fa : Source → Option FactorAnalysis)
    (hw : ∀ s, 0 ≤ p.factor_weights s)
    (hsum : 0 < ∑ s : Source, p.factor_weights s)
    (hfa : ∀ s a, fa s = some a → 0 ≤ a.impact ∧ a.impact ≤ 1) :
    0 < ∑ s : Source, blendedWeight p fa s := by
  have hlow : ∀ s ∈ Finset.univ, p.factor_weights s * (8/10) ≤ blendedWeight p fa s := by
    intro s _
    unfold blendedWeight
    cases hfs : fa s with
    | none =>
        calc p.factor_weights s * (8/10) ≤ p.factor_weights s * 1 :=
              mul_le_mul_of_nonneg_left (by norm_num) (hw s)
          _ = p.factor_weights s := mul_one _
    | some a =>
        exact le_add_of_nonneg_right (mul_nonneg (hfa s a hfs).1 (by norm_num))
  calc (0:ℚ) < (∑ s : Source, p.factor_weights s) * (8/10) := by positivity
    _ = ∑ s : Source, p.factor_weights s * (8/10) := Finset.sum_mul _ _ _
    _ ≤ ∑ s : Source, blendedWeight p fa s := Finset.sum_le_sum hlow

/-- C6: after a reflection update of a bucket whose weights are nonnegative
with positive total (as the default bucket's are, and as every updated bucket
remains), and with per-source impacts in [0,1], the four factor weights sum
to exactly 1 — each weight is blended as 0.8·old + 0.2·impact and then all
are renormalized by their total — and they stay nonnegative, so the
invariant persists across any sequence of updates. -/
theorem bucket_weights_sum_one (p : Performance) (wa : Bool)
    (fa : Source → Option FactorAnalysis)
    (hw : ∀ s, 0 ≤ p.factor_weights s)
    (hsum : 0 < ∑ s : Source, p.factor_weights s)
    (hfa : ∀ s a, fa s = some a → 0 ≤ a.impact ∧ a.impact ≤ 1) :
    (∑ s : Source, (updatePerformanceMetrics (some p) wa fa).factor_weights s) = 1 ∧
    (∀ s, 0 ≤ (updatePerformanceMetrics (some p) wa fa).factor_weights s) ∧
    0 < ∑ s : Source, (updatePerformanceMetrics (some p) wa fa).factor_weights s := by
  have htot : 0 < ∑ s : Source, blendedWeight p fa s := blendedWeight_sum_pos p fa hw hsum hfa
  rw [updatePerformanceMetrics_factor_weights]
  have hone : (∑ s : Source, blendedWeight p fa s / ∑ s2 : Source, blendedWeight p fa s2) = 1 := by
    rw [← Finset.sum_div]
    exact div_self (ne_of_gt htot)
  refine ⟨hone, ?_, by rw [hone]; norm_num⟩
  intro s
  exact div_nonneg (blendedWeight_nonneg p fa hw hfa s) (le_of_lt htot)

/-- C6 witness: one update of the default bucket with impact 0.5 on every
source. -/
theorem bucket_weights_sum_one_witness :
    ((∀ s, 0 ≤ defaultPerformance.factor_weights s) ∧
      0 < ∑ s : Source, defaultPerformance.factor_weights s) ∧
    (∑ s : Source, (updatePerformanceMetrics (some defaultPerformance) true
      (fun _ => some ⟨5/10, 5/10⟩)).factor_weights s) = 1 := by
  have hw : ∀ s, 0 ≤ defaultPerformance.factor_weights s := by
    intro s
    norm_num [defaultPerformance]
  have hsum : 0 < ∑ s : Source, defaultPerformance.factor_weights s := by
    simp [defaultPerformance, Finset.sum_const]
    decide
  exact ⟨⟨hw, hsum⟩,
    (bucket_weights_sum_one defaultPerformance true (fun _ => some ⟨5/10, 5/10⟩) hw hsum
      (fun s a h => by
        cases h
        constructor <;> norm_num)).1⟩

/-- C2 (amended): the service-level reflection computes `was_successful`
with the claimed non-strict comparisons (exit ≥ entry for BUY, exit ≤ entry
for SELL); the backend ReflectionEngine instead derives `was_accurate` from
the caller-supplied `profit_loss_pips` with strict comparisons (BUY: pips >
0, SELL: pips < 0), so a break-even close counts as inaccurate there.  The
bucket-update part of the claim holds: an inaccurate outcome increments
`total_signals`, leaves `accurate_signals` unchanged, and recomputes
`accuracy_rate` as `accurate_signals / total_signals`; in particular a BUY
with exit < entry has pips < 0 and is scored inaccurate. -/
theorem reflection_accuracy_semantics :
    (∀ en ex : ℚ, (reflect_on_signal_outcome "BUY" en ex).was_successful = true ↔ en ≤ ex) ∧
    (∀ en ex : ℚ, (reflect_on_signal_outcome "SELL" en ex).was_successful = true ↔ ex ≤ en) ∧
    (∀ q : ℚ, backendWasAccurate "BUY" q = true ↔ 0 < q) ∧
    (∀ q : ℚ, backendWasAccurate "SELL" q = true ↔ q < 0) ∧
    (∀ (p : Performance) (fa : Source → Option FactorAnalysis),
      (updatePerformanceMetrics (some p) false fa).total_signals = p.total_signals + 1 ∧
      (updatePerformanceMetrics (some p) false fa).accurate_signals = p.accurate_signals ∧
      (updatePerformanceMetrics (some p) false fa).accuracy_rate =
        (p.accurate_signals : ℚ) / ((p.total_signals : ℚ) + 1)) ∧
    (∀ en ex : ℚ, ex < en → backendWasAccurate "BUY" ((ex - en) * 10000) = false) := by
  refine ⟨?_, ?_, ?_, ?_, ?_, ?_⟩
  · intro en ex
    simp [reflect_on_signal_outcome]
  · intro en ex
    simp [reflect_on_signal_outcome]
  · intro q
    simp [backendWasAccurate]
  · intro q
    simp [backendWasAccurate]
  · intro p fa
    refine ⟨rfl, rfl, ?_⟩
    show ((p.accurate_signals : ℚ)) / ((p.total_signals + 1 : ℕ) : ℚ) =
      (p.accurate_signals : ℚ) / ((p.total_signals : ℚ) + 1)
    push_cast
    ring_nf
  · intro en ex h
    have hq : (ex - en) * 10000 < 0 := by nlinarith
    simp [backendWasAccurate]
    linarith

/-- C2 witness: a losing BUY (entry 1.10, exit 1.09) is scored inaccurate by
the backend, and an inaccurate update of the default bucket gives one total
signal and zero accurate signals. -/
theorem reflection_accuracy_semantics_witness :
    ((109:ℚ)/100 < 11/10) ∧
    backendWasAccurate "BUY" (((109:ℚ)/100 - 11/10) * 10000) = false ∧
    (updatePerformanceMetrics (some defaultPerformance) false (fun _ => none)).total_signals =
      1 ∧
    (updatePerformanceMetrics (some defaultPerformance) false
      (fun _ => none)).accurate_signals = 0 :=
  ⟨by norm_num,
   reflection_accuracy_semantics.2.2.2.2.2 (11/10) (109/100) (by norm_num),
   (reflection_accuracy_semantics.2.2.2.2.1 defaultPerformance (fun _ => none)).1,
   (reflection_accuracy_semantics.2.2.2.2.1 defaultPerformance (fun _ => none)).2.1⟩

/-- C2 counterexample: a BUY signal closed exactly at its entry price.  The
claim demands was_accurate = true (exit ≥ entry), and the service-level
reflection indeed scores it successful, but the backend ReflectionEngine —
the component that performs the claimed bucket update — receives
profit_loss_pips = (exit − entry)·10000 = 0 and scores it NOT accurate, so
the claimed characterization is false for the reflection stage. -/
theorem reflection_accuracy_breakeven_cex :
    ((11:ℚ)/10 ≤ 11/10) ∧
    (reflect_on_signal_outcome "BUY" (11/10) (11/10)).was_successful = true ∧
    (((11:ℚ)/10 - 11/10) * 10000 = 0) ∧
    backendWasAccurate "BUY" (((11:ℚ)/10 - 11/10) * 10000) = false := by
  refine ⟨le_refl _, ?_, by norm_num, ?_⟩
  · simp [reflect_on_signal_outcome]
  · norm_num [backendWasAccurate]

/-- The C7 failing input: a well-formed technical factor list containing an
ATR factor dict with value 0.003. -/
def c7Factors : List PyEntry := [PyEntry.facE ⟨"atr", 3/1000⟩]

/-- C7: the code evaluated at the failing input.  A CombinedDecision whose
technical factors contain an ATR factor dict (name "atr", value 0.003), entry
price 1.10, direction BUY: the line-260 membership test compares the string
"atr" against factor dicts and is false, so the code ignores the present ATR
factor and uses the 0.5-percent default volatility unit 0.0055, producing
stop_loss 1.091750 — not the 1.0955 the claim (entry − 1.5·0.003) requires. -/
theorem atr_factor_ignored :
    atrMembershipCheck c7Factors = false ∧
    volatilityUnit c7Factors (11/10) = Except.ok ((11/10) * (5/1000)) ∧
    generate_trading_signal ⟨"BUY", 8/10, c7Factors⟩ ⟨10999/10000, 11/10⟩ "H1" =
      SignalResult.signal ⟨"BUY", 11/10, 4367/4000, 891/800, 5/3, 8/10, "1-2 days"⟩ ∧
    (4367/4000 : ℚ) ≠ (11/10) - (3/1000) * (15/10) := by
  refine ⟨rfl, rfl, ?_, by norm_num⟩
  simp only [generate_trading_signal]
  rw [if_neg (by push_neg; exact ⟨by decide, by norm_num⟩)]
  simp [volatilityUnit, atrMembershipCheck, c7Factors, findAtrFactor, riskRewardRatio,
    expectedDuration, abs]
  try norm_num

lemma riskRewardRatio_cases (e s t : ℚ) :
    (|e - s| = 0 → riskRewardRatio e s t = 0) ∧
    (|e - s| ≠ 0 → riskRewardRatio e s t = |t - e| / |e - s|) := by
  have hdef : riskRewardRatio e s t = if |e - s| > 0 then |t - e| / |e - s| else 0 := rfl
  constructor
  · intro h0
    rw [hdef, if_neg]
    rw [h0]
    exact lt_irrefl 0
  · intro hne
    rw [hdef, if_pos (lt_of_le_of_ne (abs_nonneg _) (Ne.symm hne))]

/-- C8: every signal actually produced by the builder has
`risk_reward_ratio` computed by the guarded formula: it equals reward/risk
(with risk = |entry − stop_loss| and reward = |take_profit − entry|) whenever
risk is nonzero, and equals 0 — not a division by zero — when risk is 0. -/
theorem risk_reward_ratio_safe (ca : CombinedAnalysis) (cp : CurrentPrice) (tf : String)
    (sig : TradeSignal)
    (h : generate_trading_signal ca cp tf = SignalResult.signal sig) :
    sig.risk_reward_ratio = riskRewardRatio sig.entry_price sig.stop_loss sig.take_profit ∧
    (|sig.entry_price - sig.stop_loss| = 0 → sig.risk_reward_ratio = 0) ∧
    (|sig.entry_price - sig.stop_loss| ≠ 0 →
      sig.risk_reward_ratio =
        |sig.take_profit - sig.entry_price| / |sig.entry_price - sig.stop_loss|) := by
  simp only [generate_trading_signal] at h
  split_ifs at h with hgate hbuy
  · cases hv : volatilityUnit ca.technical_factors cp.ask with
    | error e =>
        rw [hv] at h
        exact SignalResult.noConfusion h
    | ok atr =>
        rw [hv] at h
        injection h with h2
        subst h2
        exact ⟨rfl, (riskRewardRatio_cases _ _ _).1, (riskRewardRatio_cases _ _ _).2⟩
  · cases hv : volatilityUnit ca.technical_factors cp.bid with
    | error e =>
        rw [hv] at h
        exact SignalResult.noConfusion h
    | ok atr =>
        rw [hv] at h
        injection h with h2
        subst h2
        exact ⟨rfl, (riskRewardRatio_cases _ _ _).1, (riskRewardRatio_cases _ _ _).2⟩

/-- C8 witness: a concrete SELL signal (bid 1, no ATR factor), whose stop is
403/400 and target 79/80, giving ratio 5/3. -/
theorem risk_reward_ratio_safe_witness :
    generate_trading_signal ⟨"SELL", 7/10, []⟩ ⟨1, 2⟩ "D1" =
      SignalResult.signal ⟨"SELL", 1, 403/400, 79/80, 5/3, 7/10, "1-3 weeks"⟩ ∧
    ((⟨"SELL", 1, 403/400, 79/80, 5/3, 7/10, "1-3 weeks"⟩ : TradeSignal).risk_reward_ratio =
      riskRewardRatio (1 : ℚ) (403/400) (79/80) ∧
    (|((1:ℚ)) - 403/400| = 0 →
      (⟨"SELL", 1, 403/400, 79/80, 5/3, 7/10, "1-3 weeks"⟩ : TradeSignal).risk_reward_ratio = 0) ∧
    (|((1:ℚ)) - 403/400| ≠ 0 →
      (⟨"SELL", 1, 403/400, 79/80, 5/3, 7/10, "1-3 weeks"⟩ : TradeSignal).risk_reward_ratio =
        |(79:ℚ)/80 - 1| / |((1:ℚ)) - 403/400|)) := by
  have hgen : generate_trading_signal ⟨"SELL", 7/10, []⟩ ⟨1, 2⟩ "D1" =
      SignalResult.signal ⟨"SELL", 1, 403/400, 79/80, 5/3, 7/10, "1-3 weeks"⟩ := by
    simp only [generate_trading_signal]
    rw [if_neg (by push_neg; exact ⟨by decide, by norm_num⟩)]
    simp [volatilityUnit, atrMembershipCheck, findAtrFactor, riskRewardRatio,
      expectedDuration, abs]
    try norm_num
  exact ⟨hgen, risk_reward_ratio_safe ⟨"SELL", 7/10, []⟩ ⟨1, 2⟩ "D1" _ hgen⟩

/-- C9: any input with fewer than 50 indicator periods yields the degraded
result — direction NEUTRAL, confidence 0.0, a single insufficient_data factor
carrying the period count, and the error note — and, the embedding being a
total function, no exception reaches the caller. -/
theorem insufficient_data_degrades (inp : TechInput) (h : inp.numPeriods < 50) :
    analyze_technical_data inp =
      { direction := "NEUTRAL"
        confidence_score := 0
        factors := [⟨"insufficient_data", FVal.nat inp.numPeriods⟩]
        error := some "Insufficient data points for reliable analysis" } := by
  unfold analyze_technical_data
  rw [if_pos h]

/-- A technical-scorer input with every indicator value zeroed. -/
def zeroTechInput : TechInput where
  numPeriods := 0
  lastClose := 0
  lastSma20 := 0
  lastSma50 := 0
  lastSma200 := 0
  lastEma12 := 0
  lastEma26 := 0
  prevEma12 := 0
  prevEma26 := 0
  hasMacdCols := false
  lastMacd := 0
  lastMacdSignal := 0
  prevMacd := 0
  prevMacdSignal := 0
  lastRsi := 0
  hasStochCols := false
  lastStochK := 0
  lastStochD := 0
  prevStochK := 0
  prevStochD := 0
  hasBBCols := false
  bbl := 0
  bbm := 0
  bbu := 0
  highs := []
  lows := []
  closes := []

/-- The C9 witness input: 40 periods of data (Scenario B). -/
def c9Input : TechInput := { zeroTechInput with numPeriods := 40 }

/-- C9 witness: the scorer at the 40-period input. -/
theorem insufficient_data_degrades_witness :
    c9Input.numPeriods < 50 ∧
    analyze_technical_data c9Input =
      { direction := "NEUTRAL"
        confidence_score := 0
        factors := [⟨"insufficient_data", FVal.nat c9Input.numPeriods⟩]
        error := some "Insufficient data points for reliable analysis" } :=
  ⟨by decide, insufficient_data_degrades c9Input (by decide)⟩

/-- The C4 counterexample input: 40 periods of data. -/
def c4BadInput : TechInput := { zeroTechInput with numPeriods := 40 }

/-- C4 counterexample: at an input with fewer than 50 periods the returned
confidence_score is 0.0, which is not in [0.5, 1.0], so the claim quantified
over every input is false. -/
theorem technical_confidence_degraded_cex :
    (analyze_technical_data c4BadInput).confidence_score = 0 ∧
    ¬((5:ℚ)/10 ≤ (analyze_technical_data c4BadInput).confidence_score) := by
  have h : (analyze_technical_data c4BadInput).confidence_score = 0 := rfl
  exact ⟨h, by rw [h]; norm_num⟩

/-- C4 (amended): for every input with at least 50 periods, the returned
confidence lies in [0.5, 1.0], equals exactly 0.5 iff buy_score = sell_score,
and otherwise equals 0.5 + min(0.5, 2·|buy_score − sell_score|).  Inputs with
fewer than 50 periods take the degraded path and return confidence 0.0
instead. -/
theorem technical_confidence_bounds (inp : TechInput) (h : ¬ inp.numPeriods < 50) :
    (5/10 ≤ (analyze_technical_data inp).confidence_score ∧
      (analyze_technical_data inp).confidence_score ≤ 1) ∧
    ((analyze_technical_data inp).confidence_score = 5/10 ↔ buyScore inp = sellScore inp) ∧
    (buyScore inp ≠ sellScore inp →
      (analyze_technical_data inp).confidence_score =
        5/10 + min (5/10) (|buyScore inp - sellScore inp| * 2)) := by
  have hc : (analyze_technical_data inp).confidence_score =
      (if buyScore inp > sellScore inp then
        5/10 + min (5/10) ((buyScore inp - sellScore inp) * 2)
       else if sellScore inp > buyScore inp then
        5/10 + min (5/10) ((sellScore inp - buyScore inp) * 2)
       else 5/10) := by
    unfold analyze_technical_data
    rw [if_neg h]
  rcases lt_trichotomy (buyScore inp) (sellScore inp) with hlt | heq | hgt
  · rw [hc, if_neg (not_lt.mpr (le_of_lt hlt)), if_pos hlt]
    have hm0 : 0 < min (5/10 : ℚ) ((sellScore inp - buyScore inp) * 2) :=
      lt_min (by norm_num) (by linarith)
    have hm1 : min (5/10 : ℚ) ((sellScore inp - buyScore inp) * 2) ≤ 5/10 :=
      min_le_left _ _
    refine ⟨⟨by linarith, by linarith⟩, ?_, ?_⟩
    · exact iff_of_false (by linarith) (ne_of_lt hlt)
    · intro hne
      rw [abs_of_neg (sub_neg.mpr hlt), neg_sub]
  · rw [hc, if_neg (by rw [heq]; exact lt_irrefl _), if_neg (by rw [heq]; exact lt_irrefl _)]
    exact ⟨⟨le_refl _, by norm_num⟩, iff_of_true rfl heq, fun hne => absurd heq hne⟩
  · rw [hc, if_pos hgt]
    have hm0 : 0 < min (5/10 : ℚ) ((buyScore inp - sellScore inp) * 2) :=
      lt_min (by norm_num) (by linarith)
    have hm1 : min (5/10 : ℚ) ((buyScore inp - sellScore inp) * 2) ≤ 5/10 :=
      min_le_left _ _
    refine ⟨⟨by linarith, by linarith⟩, ?_, ?_⟩
    · exact iff_of_false (by linarith) (ne_of_gt hgt)
    · intro hne
      rw [abs_of_pos (sub_pos.mpr hgt)]

/-- The C4 witness input: exactly 50 periods, all indicators zero, so no vote
fires and buy_score = sell_score = 0. -/
def c4WitnessInput : TechInput := { zeroTechInput with numPeriods := 50 }

/-- C4 witness: the amended claim at the 50-period all-zero input. -/
theorem technical_confidence_bounds_witness :
    (¬ c4WitnessInput.numPeriods < 50) ∧
    ((5/10 ≤ (analyze_technical_data c4WitnessInput).confidence_score ∧
      (analyze_technical_data c4WitnessInput).confidence_score ≤ 1) ∧
    ((analyze_technical_data c4WitnessInput).confidence_score = 5/10 ↔
      buyScore c4WitnessInput = sellScore c4WitnessInput) ∧
    (buyScore c4WitnessInput ≠ sellScore c4WitnessInput →
      (analyze_technical_data c4WitnessInput).confidence_score =
        5/10 + min (5/10) (|buyScore c4WitnessInput - sellScore c4WitnessInput| * 2))) :=
  ⟨by decide, technical_confidence_bounds c4WitnessInput (by decide)⟩

/-- A vote block casting weight exactly 1 toward BUY or SELL when it fires,
and nothing otherwise. -/
def votesWeight1 (v : Votes) : Prop :=
  (v.buy = 0 ∧ v.sell = 0) ∨ (v.buy = 1 ∧ v.sell = 0) ∨ (v.buy = 0 ∧ v.sell = 1)

/-- A vote block casting weight exactly 2 when it fires. -/
def votesWeight2 (v : Votes) : Prop :=
  (v.buy = 0 ∧ v.sell = 0) ∨ (v.buy = 2 ∧ v.sell = 0) ∨ (v.buy = 0 ∧ v.sell = 2)

/-- C5 (amended): the per-relationship vote weights of the Technical Scorer.
Price vs the 20- and 50-period moving averages, the MACD sign, the RSI
overbought/oversold zones, the stochastic zone, the Bollinger breach,
proximity to nearest support/resistance and the support/resistance
risk-reward vote all cast weight exactly 1; the 200-period trend, the EMA
12/26 crossover and the MACD/signal crossover cast weight exactly 2; but —
against the claim — the stochastic percent-K/percent-D crossover casts
weight 1, not 2, and the RSI 50-level momentum zones cast weight 0.5.  The
RSI conjunct assigns each zone its exact weight: RSI above 70 is one SELL
vote of weight 1, RSI below 30 one BUY vote of weight 1, RSI in (50, 70]
one BUY vote of weight 0.5, RSI in [30, 50) one SELL vote of weight 0.5,
and RSI exactly 50 casts nothing.  The ATR block casts no votes. -/
theorem technical_vote_weights :
    ∀ a b c d : ℚ, ∀ r? s? : Option ℚ, ∀ hs ls cs : List ℚ,
      votesWeight1 (sma20Votes a b) ∧
      votesWeight1 (sma50Votes a b) ∧
      votesWeight2 (sma200Votes a b) ∧
      votesWeight2 (emaCrossVotes a b c d) ∧
      votesWeight2 (macdCrossVotes a b c d) ∧
      votesWeight1 (macdSignVotes a) ∧
      ((70 < a → (rsiVotes a).buy = 0 ∧ (rsiVotes a).sell = 1) ∧
       (a < 30 → (rsiVotes a).buy = 1 ∧ (rsiVotes a).sell = 0) ∧
       (50 < a → a ≤ 70 → (rsiVotes a).buy = 5/10 ∧ (rsiVotes a).sell = 0) ∧
       (30 ≤ a → a < 50 → (rsiVotes a).buy = 0 ∧ (rsiVotes a).sell = 5/10) ∧
       (a = 50 → (rsiVotes a).buy = 0 ∧ (rsiVotes a).sell = 0)) ∧
      votesWeight1 (stochCrossVotes a b c d) ∧
      votesWeight1 (stochZoneVotes a b) ∧
      votesWeight1 (bbBreachVotes a b c) ∧
      ((atrFactors hs ls cs a).buy = 0 ∧ (atrFactors hs ls cs a).sell = 0) ∧
      votesWeight1 (resistanceVotes r? b) ∧
      votesWeight1 (supportVotes s? b) ∧
      votesWeight1 (rrVotes s? r? c) := by
  intro a b c d r? s? hs ls cs
  refine ⟨?_, ?_, ?_, ?_, ?_, ?_, ?_, ?_, ?_, ?_, ?_, ?_, ?_, ?_⟩
  · unfold votesWeight1 sma20Votes
    split_ifs <;> norm_num [Votes.none]
  · unfold votesWeight1 sma50Votes
    split_ifs <;> norm_num [Votes.none]
  · unfold votesWeight2 sma200Votes
    split_ifs <;> norm_num [Votes.none]
  · unfold votesWeight2 emaCrossVotes
    split_ifs <;> norm_num [Votes.none]
  · unfold votesWeight2 macdCrossVotes
    split_ifs <;> norm_num [Votes.none]
  · unfold votesWeight1 macdSignVotes
    split_ifs <;> norm_num [Votes.none]
  · unfold rsiVotes
    refine ⟨?_, ?_, ?_, ?_, ?_⟩
    · intro h70
      rw [if_pos h70]
      exact ⟨rfl, rfl⟩
    · intro h30
      rw [if_neg (by linarith), if_pos h30]
      exact ⟨rfl, rfl⟩
    · intro h50 h70
      rw [if_neg (not_lt.mpr h70), if_neg (by linarith), if_pos h50]
      exact ⟨rfl, rfl⟩
    · intro h30 h50
      rw [if_neg (by linarith), if_neg (not_lt.mpr h30), if_neg (by linarith), if_pos h50]
      exact ⟨rfl, rfl⟩
    · intro h50
      rw [if_neg (by rw [h50]; norm_num), if_neg (by rw [h50]; norm_num),
        if_neg (by rw [h50]; norm_num), if_neg (by rw [h50]; norm_num)]
      exact ⟨rfl, rfl⟩
  · unfold votesWeight1 stochCrossVotes
    split_ifs <;> norm_num [Votes.none]
  · unfold votesWeight1 stochZoneVotes
    split_ifs <;> norm_num [Votes.none]
  · unfold votesWeight1 bbBreachVotes
    split_ifs <;> norm_num [Votes.none]
  · unfold atrFactors
    cases atrValue hs ls cs with
    | none => exact ⟨rfl, rfl⟩
    | some v =>
        simp only []
        split_ifs <;> norm_num [Votes.add, Votes.none]
  · unfold votesWeight1 resistanceVotes
    cases r? with
    | none => norm_num [Votes.none]
    | some r =>
        simp only [Votes.add]
        split_ifs <;> norm_num [Votes.none]
  · unfold votesWeight1 supportVotes
    cases s? with
    | none => norm_num [Votes.none]
    | some s =>
        simp only [Votes.add]
        split_ifs <;> norm_num [Votes.none]
  · unfold votesWeight1 rrVotes
    cases s? with
    | none => cases r? <;> norm_num [Votes.none]
    | some s =>
        cases r? with
        | none => norm_num [Votes.none]
        | some r =>
            simp only [Votes.add]
            split_ifs <;> norm_num [Votes.none]

/-- C5 counterexample: at RSI 60 the RSI 50-level relationship fires (its
evidence factor is recorded) with vote weight 0.5, not 1; and at a
stochastic bullish crossover (K 30 over D 20, previous K 10 under D 20) the
crossover fires with weight 1, not the claimed 2. -/
theorem technical_vote_weights_cex :
    rsiVotes 60 = ⟨5/10, 0, [⟨"rsi_bullish", FVal.num 60⟩]⟩ ∧
    ¬((5:ℚ)/10 = 1) ∧
    stochCrossVotes 30 20 10 20 = ⟨1, 0, [⟨"stoch_bullish_crossover", FVal.num 10⟩]⟩ ∧
    ¬((1:ℚ) = 2) := by
  refine ⟨?_, by norm_num, ?_, by norm_num⟩
  · norm_num [rsiVotes]
  · norm_num [stochCrossVotes]

/-- C5 witness: the RSI zone conjuncts exercised at RSI 80 (overbought,
weight-1 SELL vote), 60 (above 50, weight-0.5 BUY vote) and 40 (below 50,
weight-0.5 SELL vote). -/
theorem technical_vote_weights_witness :
    ((70:ℚ) < 80 ∧ (50:ℚ) < 60 ∧ (60:ℚ) ≤ 70 ∧ (30:ℚ) ≤ 40 ∧ (40:ℚ) < 50) ∧
    (rsiVotes 80).buy = 0 ∧ (rsiVotes 80).sell = 1 ∧
    (rsiVotes 60).buy = 5/10 ∧ (rsiVotes 60).sell = 0 ∧
    (rsiVotes 40).buy = 0 ∧ (rsiVotes 40).sell = 5/10 := by
  have h80 := (technical_vote_weights 80 0 0 0 none none [] [] []).2.2.2.2.2.2.1
  have h60 := (technical_vote_weights 60 0 0 0 none none [] [] []).2.2.2.2.2.2.1
  have h40 := (technical_vote_weights 40 0 0 0 none none [] [] []).2.2.2.2.2.2.1
  exact ⟨⟨by norm_num, by norm_num, by norm_num, by norm_num, by norm_num⟩,
    (h80.1 (by norm_num)).1, (h80.1 (by norm_num)).2,
    (h60.2.2.1 (by norm_num) (by norm_num)).1, (h60.2.2.1 (by norm_num) (by norm_num)).2,
    (h40.2.2.2.1 (by norm_num) (by norm_num)).1, (h40.2.2.2.1 (by norm_num) (by norm_num)).2⟩

end ForexJoey
